import Mathlib

/-!
Verification of the cinema frontend (Next.js/TypeScript) against its
natural-language specification.

The file shallowly embeds the code of:
  * the results page (`getScenes`, `getPrompts`, `getAudioDesign`,
    `getCharacterAssignments`, `getConsistencyMap`, `downloadResults`),
  * the characters page (`toggleCharacter`, `addCustomCharacter`,
    `removeCharacter`, `handleContinue`, the skip button),
  * the scenario page (submit-button enabling),
  * the generate page (the prompt-count stat card).

Two embeddings of the result normalizer are given:
  * a typed model (structures with `Option` fields; a JavaScript field that is
    absent, `null` or `undefined` is `none`; a present array field is `some`,
    which is truthy in JavaScript even when the array is empty), used for the
    functional claims; and
  * a dynamic model (`JVal`, untyped JavaScript values with explicit
    `TypeError` propagation in `Except`), used for the safety claim about
    malformed input.
-/

/-! ## JavaScript string primitives

`String.prototype.trim`, `String.prototype.split(",")` and lexicographic
string comparison, modelled executably over the character list of a string. -/

/-- Whitespace test for the model of JavaScript `trim` (ASCII whitespace). -/
def isJsWhitespace (c : Char) : Bool :=
  c = ' ' || c = '\t' || c = '\n' || c = '\r'

/-- Drop leading and trailing whitespace from a character list. -/
def trimChars (l : List Char) : List Char :=
  ((l.dropWhile isJsWhitespace).reverse.dropWhile isJsWhitespace).reverse

/-- Model of JavaScript `s.trim()`. -/
def jsTrim (s : String) : String := String.mk (trimChars s.data)

/-- Split a character list at every occurrence of the separator character. -/
def splitCharsAt (sep : Char) : List Char → List Char → List (List Char)
  | [], acc => [acc.reverse]
  | c :: rest, acc =>
      if c = sep then acc.reverse :: splitCharsAt sep rest []
      else splitCharsAt sep rest (c :: acc)

/-- Model of JavaScript `s.split(',')`: every comma is a cut point, and a
nonempty input yields at least one (possibly empty) piece. -/
def jsSplitComma (s : String) : List String :=
  (splitCharsAt ',' s.data []).map String.mk

/-- Lexicographic order on character lists (model of JavaScript string
comparison). -/
def charListLE : List Char → List Char → Bool
  | [], _ => true
  | _ :: _, [] => false
  | a :: as, b :: bs =>
      if a < b then true else if b < a then false else charListLE as bs

/-- Model of JavaScript `a <= b` on strings. -/
def jsStrLE (a b : String) : Bool := charListLE a.data b.data

/-! ## Typed model of accumulated stage results

The shapes are taken from the result page's accesses: the nested (current)
schema lives under `scenario_analysis`, `prompt_generation`, `sound_design`
and `character_analysis`; the flat (legacy) schema has top-level `scenes`,
`prompts` and `audio_design` arrays.  Fields of prompt objects not inspected
by any accessor (camera, lens, aperture, ...) are carried through the spread
`{...ip}` unchanged and are elided here. -/

/-- A scene as rendered by the results page. -/
structure Scene where
  id : Nat
  description : String
  deriving DecidableEq, Repr

/-- A prompt as stored inside a scene's `image_prompts` / `video_prompts`
array in the nested schema. -/
structure SrcPrompt where
  time : String
  prompt : String
  deriving DecidableEq, Repr

/-- One entry of `prompt_generation.scene_prompts` in the nested schema. -/
structure ScenePromptGroup where
  scene_id : Nat
  image_prompts : Option (List SrcPrompt)
  video_prompts : Option (List SrcPrompt)
  deriving DecidableEq, Repr

/-- A flattened prompt as produced by `getPrompts` (and as stored in the
legacy top-level `prompts` array): the source prompt's fields plus the
`scene_id`, `prompt_type` and `time_range` tags added by the flattening. -/
structure FlatPrompt where
  scene_id : Nat
  prompt_type : String
  time_range : String
  prompt : String
  time : String
  deriving DecidableEq, Repr

/-- An audio design entry; its inner structure is not inspected by the
accessors under verification. -/
structure AudioDesignItem where
  scene_id : Nat
  deriving DecidableEq, Repr

/-- The `scenario_analysis` block of the nested schema. -/
structure ScenarioAnalysis where
  scenes : Option (List Scene)
  deriving DecidableEq, Repr

/-- The `prompt_generation` block of the nested schema. -/
structure PromptGeneration where
  scene_prompts : Option (List ScenePromptGroup)
  deriving DecidableEq, Repr

/-- The `sound_design` block of the nested schema. -/
structure SoundDesignOut where
  audio_design : Option (List AudioDesignItem)
  deriving DecidableEq, Repr

/-- An accumulated result object: nested (current) blocks and flat (legacy)
top-level arrays.  `none` models a field that is absent, `null` or
`undefined`; `some xs` models a present array (truthy in JavaScript even when
`xs` is empty). -/
structure ResultObj where
  scenario_analysis : Option ScenarioAnalysis := none
  prompt_generation : Option PromptGeneration := none
  sound_design : Option SoundDesignOut := none
  scenes : Option (List Scene) := none
  prompts : Option (List FlatPrompt) := none
  audio_design : Option (List AudioDesignItem) := none
  deriving DecidableEq, Repr

/-- Embeds the results page's `getScenes`:
`if (results?.scenario_analysis?.scenes) return it; return results?.scenes || []`. -/
def getScenes (results : Option ResultObj) : List Scene :=
  match results.bind (fun r => r.scenario_analysis.bind ScenarioAnalysis.scenes) with
  | some ns => ns
  | none => (results.bind ResultObj.scenes).getD []

/-- The object pushed for an image prompt:
`{...ip, scene_id: sp.scene_id, prompt_type: "image", time_range: ip.time}`. -/
def tagImage (sp : ScenePromptGroup) (ip : SrcPrompt) : FlatPrompt :=
  { scene_id := sp.scene_id, prompt_type := "image", time_range := ip.time,
    prompt := ip.prompt, time := ip.time }

/-- The object pushed for a video prompt:
`{...vp, scene_id: sp.scene_id, prompt_type: "video", time_range: vp.time}`. -/
def tagVideo (sp : ScenePromptGroup) (vp : SrcPrompt) : FlatPrompt :=
  { scene_id := sp.scene_id, prompt_type := "video", time_range := vp.time,
    prompt := vp.prompt, time := vp.time }

/-- The prompts pushed for one `scene_prompts` entry: all image prompts (in
stored order), then all video prompts (in stored order).  `Option.getD []`
covers both the absent field (the `if (sp.image_prompts)` guard skips) and a
present empty array (truthy, but its `forEach` pushes nothing). -/
def sceneBlock (sp : ScenePromptGroup) : List FlatPrompt :=
  (sp.image_prompts.getD []).map (tagImage sp)
    ++ (sp.video_prompts.getD []).map (tagVideo sp)

/-- The whole flattening loop of `getPrompts` over `scene_prompts`. -/
def flattenScenePrompts (sps : List ScenePromptGroup) : List FlatPrompt :=
  sps.flatMap sceneBlock

/-- Embeds the results page's `getPrompts`: if
`results?.prompt_generation?.scene_prompts` is truthy, flatten it; otherwise
`results?.prompts || []`. -/
def getPrompts (results : Option ResultObj) : List FlatPrompt :=
  match results.bind (fun r => r.prompt_generation.bind PromptGeneration.scene_prompts) with
  | some sps => flattenScenePrompts sps
  | none => (results.bind ResultObj.prompts).getD []

/-- Embeds the results page's `getAudioDesign`:
`if (results?.sound_design?.audio_design) return it; return results?.audio_design || []`. -/
def getAudioDesign (results : Option ResultObj) : List AudioDesignItem :=
  match results.bind (fun r => r.sound_design.bind SoundDesignOut.audio_design) with
  | some ad => ad
  | none => (results.bind ResultObj.audio_design).getD []

/-- Embeds the generate page's prompt stat card:
`results.prompt_generation?.scene_prompts?.length * 2 || 0` — with
`scene_prompts` absent the product is `NaN`, and `NaN || 0` is `0`; with it
present the value is twice its length (also when the length is `0`). -/
def promptCountDisplay (r : ResultObj) : Nat :=
  match r.prompt_generation.bind PromptGeneration.scene_prompts with
  | some sps => sps.length * 2
  | none => 0

/-- Embeds the CSV branch of the results page's `downloadResults`: no content
when `results` is null; otherwise the header line followed by one appended row
per flattened prompt, `content += scene_id + "," + prompt_type + ",\"" +
time_range + "\",\"" + prompt + "\"\n"`. -/
def downloadResultsCSV (results : Option ResultObj) : Option String :=
  match results with
  | none => none
  | some _ =>
      some ((getPrompts results).foldl
        (fun content p =>
          content ++ (toString p.scene_id ++ "," ++ p.prompt_type ++ ",\""
            ++ p.time_range ++ "\",\"" ++ p.prompt ++ "\"\n"))
        "Scene,Type,Time,Prompt\n")

/-! ## Dynamic model of the normalizer (JavaScript value semantics)

For the safety claim the accessors are re-embedded over untyped JavaScript
values, with optional chaining, truthiness, `||`, property access (which
throws a `TypeError` on `null`/`undefined` receivers) and `forEach` (which
throws when the receiver is not an array).  Built-in properties of primitives
and the index properties contributed by spreading a string are not modelled;
no claim inspects them. -/

/-- An untyped JavaScript value. -/
inductive JVal where
  | vundefined
  | vnull
  | vbool (b : Bool)
  | vnum (n : Int)
  | vstr (s : String)
  | varr (elems : List JVal)
  | vobj (fields : List (String × JVal))

/-- Look a key up in an object's field list (`undefined` when missing). -/
def lookupField : List (String × JVal) → String → JVal
  | [], _ => .vundefined
  | (k, v) :: rest, key => if k = key then v else lookupField rest key

/-- Optional chaining `v?.key`: `undefined` on `null`/`undefined` receivers,
field lookup on objects, `undefined` on other primitives and arrays. -/
def optChain : JVal → String → JVal
  | .vundefined, _ => .vundefined
  | .vnull, _ => .vundefined
  | .vobj fs, key => lookupField fs key
  | _, _ => .vundefined

/-- Plain member access `v.key`: a `TypeError` on `null`/`undefined`
receivers, field lookup on objects, `undefined` otherwise. -/
def getMember : JVal → String → Except String JVal
  | .vundefined, key => .error ("TypeError: cannot read " ++ key ++ " of undefined")
  | .vnull, key => .error ("TypeError: cannot read " ++ key ++ " of null")
  | .vobj fs, key => .ok (lookupField fs key)
  | _, _ => .ok .vundefined

/-- JavaScript truthiness (`NaN` is not modelled; no claim depends on it). -/
def truthy : JVal → Bool
  | .vundefined => false
  | .vnull => false
  | .vbool b => b
  | .vnum n => n != 0
  | .vstr s => s != ""
  | .varr _ => true
  | .vobj _ => true

/-- JavaScript `a || b`. -/
def jsOr (a b : JVal) : JVal := if truthy a then a else b

/-- The own enumerable fields contributed by an object spread `{...v}`. -/
def spreadFields : JVal → List (String × JVal)
  | .vobj fs => fs
  | _ => []

/-- Embeds `getScenes` over dynamic values. -/
def getScenesJS (results : JVal) : JVal :=
  let nested := optChain (optChain results "scenario_analysis") "scenes"
  if truthy nested then nested
  else jsOr (optChain results "scenes") (.varr [])

/-- Embeds `getAudioDesign` over dynamic values. -/
def getAudioDesignJS (results : JVal) : JVal :=
  let nested := optChain (optChain results "sound_design") "audio_design"
  if truthy nested then nested
  else jsOr (optChain results "audio_design") (.varr [])

/-- Embeds `getCharacterAssignments` over dynamic values:
`if (results?.character_analysis?.assignments) return it; return []`. -/
def getCharacterAssignmentsJS (results : JVal) : JVal :=
  let nested := optChain (optChain results "character_analysis") "assignments"
  if truthy nested then nested else .varr []

/-- Embeds `getConsistencyMap` over dynamic values:
`if (results?.character_analysis?.consistency_map) return it; return {}`. -/
def getConsistencyMapJS (results : JVal) : JVal :=
  let nested := optChain (optChain results "character_analysis") "consistency_map"
  if truthy nested then nested else .vobj []

/-- One `forEach` body over a prompt group of `getPrompts`: for each entry the
pushed object is `{...p, scene_id: sp.scene_id, prompt_type: kind,
time_range: p.time}`; accessing `p.time` throws on a `null`/`undefined`
entry, and a truthy non-array group has no `forEach` and throws. -/
def flattenGroupJS (kind : String) (sp : JVal) (grp : JVal) (acc : List JVal) :
    Except String (List JVal) :=
  match grp with
  | .varr items =>
      items.foldlM (fun acc2 p => do
        let sid ← getMember sp "scene_id"
        let t ← getMember p "time"
        pure (acc2 ++ [JVal.vobj (spreadFields p
          ++ [("scene_id", sid), ("prompt_type", .vstr kind), ("time_range", t)])]))
        acc
  | _ => .error "TypeError: forEach is not a function"

/-- The loop body of `getPrompts` for one `scene_prompts` element:
`if (sp.image_prompts) sp.image_prompts.forEach(...)`, then the same for
`video_prompts`; `sp.image_prompts` itself throws on a `null`/`undefined`
element. -/
def processScenePromptJS (sp : JVal) (acc : List JVal) : Except String (List JVal) := do
  let ips ← getMember sp "image_prompts"
  let acc1 ← if truthy ips then flattenGroupJS "image" sp ips acc else pure acc
  let vps ← getMember sp "video_prompts"
  if truthy vps then flattenGroupJS "video" sp vps acc1 else pure acc1

/-- Embeds `getPrompts` over dynamic values, with the thrown `TypeError`s of
the flattening loop made explicit in `Except`. -/
def getPromptsJS (results : JVal) : Except String JVal :=
  let sps := optChain (optChain results "prompt_generation") "scene_prompts"
  if truthy sps then
    match sps with
    | .varr items => do
        let ps ← items.foldlM (fun acc sp => processScenePromptJS sp acc) []
        pure (.varr ps)
    | _ => .error "TypeError: forEach is not a function"
  else
    pure (jsOr (optChain results "prompts") (.varr []))

/-! ## Characters page -/

/-- A character as declared on the characters page. -/
structure Character where
  name : String
  traits : List String
  style : Option String := none
  typical_roles : Option (List String) := none
  age_range : Option String := none
  deriving DecidableEq, Repr

/-- Embeds `toggleCharacter`: if `selectedCharacters.find(c => c.name ===
character.name)` is truthy, filter out every entry with that name; otherwise
append the character. -/
def toggleCharacter (character : Character) (selectedCharacters : List Character) :
    List Character :=
  if selectedCharacters.any (fun c => c.name == character.name) then
    selectedCharacters.filter (fun c => c.name != character.name)
  else
    selectedCharacters ++ [character]

/-- Embeds `removeCharacter`: keep the entries whose name differs. -/
def removeCharacter (name : String) (selectedCharacters : List Character) :
    List Character :=
  selectedCharacters.filter (fun c => c.name != name)

/-- The runtime value of the `traits` field of the in-progress custom
character: the traits text input stores a raw string, while the declared
`Character` shape carries an array (the code guards with `Array.isArray`). -/
inductive TraitsValue where
  | arr (ts : List String)
  | str (s : String)
  deriving DecidableEq, Repr

/-- The in-progress custom character (`Partial<Character>`). -/
structure PartialCharacter where
  name : Option String := none
  traits : Option TraitsValue := none
  style : Option String := none
  typical_roles : Option (List String) := none
  age_range : Option String := none
  deriving DecidableEq, Repr

/-- Truthiness of an optional string field (`undefined` and `""` are falsy). -/
def truthyOptStr : Option String → Bool
  | none => false
  | some s => s != ""

/-- Truthiness of the `traits` field (an array is always truthy, a string is
truthy when nonempty). -/
def truthyTraits : Option TraitsValue → Bool
  | none => false
  | some (.arr _) => true
  | some (.str s) => s != ""

/-- The `.length` of the `traits` value (array length or string length). -/
def traitsLength : TraitsValue → Nat
  | .arr ts => ts.length
  | .str s => s.length

/-- Embeds `addCustomCharacter`: return unchanged unless the name and the
traits are truthy and the traits have nonzero length; otherwise append a
character built from the form, splitting a traits string on commas and
trimming each piece, and reset the form.  The `.getD` defaults are only
reached when the corresponding guard already failed (JavaScript `||`
short-circuits before `customCharacter.traits.length` is read). -/
def addCustomCharacter (customCharacter : PartialCharacter)
    (selectedCharacters : List Character) : List Character × PartialCharacter :=
  if !truthyOptStr customCharacter.name || !truthyTraits customCharacter.traits
      || traitsLength (customCharacter.traits.getD (.arr [])) == 0 then
    (selectedCharacters, customCharacter)
  else
    let newChar : Character :=
      { name := customCharacter.name.getD ""
        traits :=
          match customCharacter.traits.getD (.arr []) with
          | .arr ts => ts
          | .str s => (jsSplitComma s).map jsTrim
        style := customCharacter.style
        typical_roles := customCharacter.typical_roles
        age_range := customCharacter.age_range }
    (selectedCharacters ++ [newChar], {})

/-- The casting configuration written to session storage by `handleContinue`. -/
inductive CharacterConfig where
  | ai_decides (pool : List Character) (must_include : List Character)
  | manual (characters : List Character)
  deriving DecidableEq, Repr

/-- Embeds `handleContinue`: in AI mode store
`{mode: "ai_decides", pool, must_include}`, in manual mode store
`{mode: "manual", characters}`. -/
def handleContinue (aiChooses : Bool) (characterPool selectedCharacters : List Character) :
    Option CharacterConfig :=
  if aiChooses then
    some (.ai_decides characterPool selectedCharacters)
  else
    some (.manual selectedCharacters)

/-- Embeds the Skip This Step button: `sessionStorage.removeItem("characters")`,
leaving no stored casting configuration. -/
def skipThisStep : Option CharacterConfig := none

/-- Embeds the generate page's read of the stored configuration:
`charactersStr ? JSON.parse(charactersStr) : null` — the casting
configuration handed to generation is exactly what the characters page
stored, or absent. -/
def startGenerationConfig (stored : Option CharacterConfig) : Option CharacterConfig :=
  stored

/-- A user action on the selection list (the two operations of the claim). -/
inductive SelectionOp where
  | toggle (c : Character)
  | removeByName (n : String)

/-- Apply one selection operation. -/
def applySelectionOp (op : SelectionOp) (sel : List Character) : List Character :=
  match op with
  | .toggle c => toggleCharacter c sel
  | .removeByName n => removeCharacter n sel

/-- Run a sequence of toggle/remove operations from the initial empty
selection (`useState<Character[]>([])`). -/
def applySelectionOps (ops : List SelectionOp) : List Character :=
  ops.foldl (fun sel op => applySelectionOp op sel) []

/-! ## Scenario page -/

/-- Embeds the submit button's availability:
`disabled={isLoading || scenario.length < 10}`. -/
def submitDisabled (isLoading : Bool) (text : String) : Bool :=
  isLoading || decide (text.length < 10)

/-- A scenario text of 5001 characters, one over the documented upper bound. -/
def longScenarioText : String := String.mk (List.replicate 5001 'a')

/-! ## The target ordering of the merge-determinism claim, and concrete
inputs used by the theorems below -/

/-- Rank of a prompt kind in the claimed ordering (image before video). -/
def kindRank (t : String) : Nat := if t = "image" then 0 else 1

/-- The ordering claimed for the flattened prompt list: by scene number, then
by prompt kind, then by time range. -/
def promptLE (p q : FlatPrompt) : Prop :=
  p.scene_id < q.scene_id ∨
    (p.scene_id = q.scene_id ∧
      (kindRank p.prompt_type < kindRank q.prompt_type ∨
        (p.prompt_type = q.prompt_type ∧ jsStrLE p.time_range q.time_range = true)))

instance (p q : FlatPrompt) : Decidable (promptLE p q) :=
  inferInstanceAs (Decidable (p.scene_id < q.scene_id ∨
    (p.scene_id = q.scene_id ∧
      (kindRank p.prompt_type < kindRank q.prompt_type ∨
        (p.prompt_type = q.prompt_type ∧ jsStrLE p.time_range q.time_range = true)))))

/-- A result whose nested `scenario_analysis.scenes` is present but empty
while the legacy `scenes` array is nonempty. -/
def presentEmptyNestedScenes : ResultObj :=
  { scenario_analysis := some { scenes := some [] },
    scenes := some [{ id := 1, description := "legacy scene" }] }

/-- A partially-migrated result: nested scenes, legacy prompts. -/
def wMixedResult : ResultObj :=
  { scenario_analysis := some { scenes := some [{ id := 1, description := "nested scene" }] },
    prompts := some [{ scene_id := 1, prompt_type := "image", time_range := "0-5s",
                       prompt := "legacy prompt", time := "0-5s" }] }

/-- A nested result with one scene carrying two image prompts and one video
prompt. -/
def wNestedResult : ResultObj :=
  { prompt_generation := some { scene_prompts := some [
      { scene_id := 1,
        image_prompts := some [{ time := "0-2s", prompt := "ip one" },
                               { time := "2-4s", prompt := "ip two" }],
        video_prompts := some [{ time := "0-4s", prompt := "vp one" }] }] } }

/-- A nested result whose `scene_prompts` are stored out of scene order. -/
def unsortedScenePromptsResult : ResultObj :=
  { prompt_generation := some { scene_prompts := some [
      { scene_id := 2, image_prompts := some [{ time := "0-5s", prompt := "p two" }],
        video_prompts := none },
      { scene_id := 1, image_prompts := some [{ time := "0-5s", prompt := "p one" }],
        video_prompts := none }] } }

/-- A nested result whose `scene_prompts` are stored in ascending scene order
with each prompt group in ascending time order. -/
def sortedScenePromptsResult : ResultObj :=
  { prompt_generation := some { scene_prompts := some [
      { scene_id := 1,
        image_prompts := some [{ time := "0-2s", prompt := "s1 i1" },
                               { time := "2-4s", prompt := "s1 i2" }],
        video_prompts := some [{ time := "0-4s", prompt := "s1 v1" }] },
      { scene_id := 2,
        image_prompts := some [{ time := "4-6s", prompt := "s2 i1" }],
        video_prompts := some [{ time := "4-8s", prompt := "s2 v1" }] }] } }

/-- A dynamic result whose nested `scene_prompts` is truthy but not an array. -/
def malformedScenePromptsJS : JVal :=
  .vobj [("prompt_generation", .vobj [("scene_prompts", .vnum 1)])]

/-- A filled-in custom character form: a name and a comma-separated traits
string. -/
def pcBob : PartialCharacter :=
  { name := some "Bob", traits := some (.str "brave, bold") }

/-- A concrete pool character. -/
def chAlex : Character := { name := "Alex", traits := ["brave"] }

/-- A nested result with a single scene carrying one image prompt and no
video prompts. -/
def oneImagePromptResult : ResultObj :=
  { prompt_generation := some { scene_prompts := some [
      { scene_id := 1, image_prompts := some [{ time := "0-5s", prompt := "solo" }],
        video_prompts := none }] } }

/-! ## Shared lemmas -/

theorem str_append_empty (s : String) : s ++ "" = s := by
  apply String.ext
  simp [String.data_append, show ("" : String).data = [] from rfl]

theorem str_empty_append (s : String) : "" ++ s = s := by
  apply String.ext
  simp [String.data_append, show ("" : String).data = [] from rfl]

theorem str_append_assoc (a b c : String) : a ++ b ++ c = a ++ (b ++ c) := by
  apply String.ext
  simp [String.data_append]

theorem foldl_append_shift {α : Type} (f : α → String) (l : List α) :
    ∀ init : String,
      l.foldl (fun content p => content ++ f p) init
        = init ++ l.foldl (fun content p => content ++ f p) "" := by
  induction l with
  | nil => intro init; simp [str_append_empty]
  | cons a t ih =>
      intro init
      simp only [List.foldl_cons]
      rw [str_empty_append (f a), ih (init ++ f a), ih (f a), str_append_assoc]

theorem foldl_append_eq_join {α : Type} (f : α → String) (l : List α) (init : String) :
    l.foldl (fun content p => content ++ f p) init = init ++ String.join (l.map f) := by
  rw [foldl_append_shift]
  congr 1
  unfold String.join
  rw [List.foldl_map]

theorem string_length_ne_zero {s : String} (h : s ≠ "") : s.length ≠ 0 := by
  intro hz
  apply h
  cases s with
  | mk data =>
      simp [String.length] at hz
      simp [hz]

/-! ## Claim theorems -/

/-- C5: the casting configuration handed to generation has exactly one of
three shapes — in AI mode `ai_decides` with the full loaded pool and the
user-selected characters as `must_include`; in manual mode `manual` with
exactly the user-entered characters; and no configuration at all when the
step is skipped. -/
theorem casting_config_three_shapes :
    (∀ characterPool selectedCharacters,
        startGenerationConfig (handleContinue true characterPool selectedCharacters)
          = some (.ai_decides characterPool selectedCharacters)) ∧
    (∀ characterPool selectedCharacters,
        startGenerationConfig (handleContinue false characterPool selectedCharacters)
          = some (.manual selectedCharacters)) ∧
    startGenerationConfig skipThisStep = none :=
  ⟨fun _ _ => rfl, fun _ _ => rfl, rfl⟩

/-- C7 (code bug): a 5001-character scenario exceeds the documented upper
bound of 5000, yet the submit button is enabled — `submitDisabled` only
checks the lower bound of 10. -/
theorem scenario_upper_bound_unenforced :
    longScenarioText.length = 5001 ∧ submitDisabled false longScenarioText = false := by
  have hlen : longScenarioText.length = 5001 := by
    rw [show longScenarioText.length = (List.replicate 5001 'a').length from rfl,
      List.length_replicate]
  refine ⟨hlen, ?_⟩
  show (false || decide (longScenarioText.length < 10)) = false
  rw [hlen]
  rfl

/-- C10: the prompt count shown on the generation-complete screen is twice
the number of `scene_prompts` entries when that field is present and `0`
when it is absent, and it can differ from the length of the flattened prompt
list over the same result. -/
theorem prompt_count_doubles_scene_prompts :
    (∀ r : ResultObj, ∀ sps,
        r.prompt_generation.bind PromptGeneration.scene_prompts = some sps →
        promptCountDisplay r = 2 * sps.length) ∧
    (∀ r : ResultObj,
        r.prompt_generation.bind PromptGeneration.scene_prompts = none →
        promptCountDisplay r = 0) ∧
    promptCountDisplay oneImagePromptResult
      ≠ (getPrompts (some oneImagePromptResult)).length := by
  refine ⟨?_, ?_, ?_⟩
  · intro r sps h
    simp [promptCountDisplay, h, Nat.mul_comm]
  · intro r h
    simp [promptCountDisplay, h]
  · decide

/-- C10 witness: a result with one scene holding a single image prompt —
the stat card shows 2 while the flattened list has a single prompt. -/
theorem prompt_count_doubles_scene_prompts_witness :
    (oneImagePromptResult.prompt_generation.bind PromptGeneration.scene_prompts
        = some [{ scene_id := 1,
                  image_prompts := some [{ time := "0-5s", prompt := "solo" }],
                  video_prompts := none }]) ∧
    promptCountDisplay oneImagePromptResult = 2 * 1 :=
  ⟨rfl, prompt_count_doubles_scene_prompts.1 oneImagePromptResult _ rfl⟩

/-- C8: the CSV export is the header row followed by exactly one row per
prompt of the flattened prompt list, in the same order, each row holding the
prompt's scene identifier, kind, time range and prompt text. -/
theorem csv_export_header_and_rows (r : ResultObj) :
    downloadResultsCSV (some r)
      = some ("Scene,Type,Time,Prompt\n"
          ++ String.join ((getPrompts (some r)).map (fun p =>
                toString p.scene_id ++ "," ++ p.prompt_type ++ ",\"" ++ p.time_range
                  ++ "\",\"" ++ p.prompt ++ "\"\n"))) := by
  unfold downloadResultsCSV
  rw [foldl_append_eq_join]

/-- C1 (amended): per top-level category the nested field's data is returned
exactly when the nested field is present (a present-but-empty nested array is
truthy in JavaScript and still wins); otherwise the flat legacy field's data
(or the empty list); the choice is made independently per category. -/
theorem normalizer_precedence_by_presence (r : ResultObj) :
    (∀ ns, r.scenario_analysis.bind ScenarioAnalysis.scenes = some ns →
        getScenes (some r) = ns) ∧
    (r.scenario_analysis.bind ScenarioAnalysis.scenes = none →
        getScenes (some r) = r.scenes.getD []) ∧
    (∀ sps, r.prompt_generation.bind PromptGeneration.scene_prompts = some sps →
        getPrompts (some r) = flattenScenePrompts sps) ∧
    (r.prompt_generation.bind PromptGeneration.scene_prompts = none →
        getPrompts (some r) = r.prompts.getD []) ∧
    (∀ ad, r.sound_design.bind SoundDesignOut.audio_design = some ad →
        getAudioDesign (some r) = ad) ∧
    (r.sound_design.bind SoundDesignOut.audio_design = none →
        getAudioDesign (some r) = r.audio_design.getD []) := by
  refine ⟨?_, ?_, ?_, ?_, ?_, ?_⟩
  · intro ns h; simp [getScenes, h]
  · intro h; simp [getScenes, h]
  · intro sps h; simp [getPrompts, h]
  · intro h; simp [getPrompts, h]
  · intro ad h; simp [getAudioDesign, h]
  · intro h; simp [getAudioDesign, h]

/-- C1 counterexample: with nested `scenario_analysis.scenes` present but
empty and a nonempty legacy `scenes` array, the claim as stated demands the
legacy data, but `getScenes` returns the empty nested array. -/
theorem normalizer_precedence_nonempty_cex :
    presentEmptyNestedScenes.scenario_analysis = some { scenes := some [] } ∧
    presentEmptyNestedScenes.scenes = some [{ id := 1, description := "legacy scene" }] ∧
    getScenes (some presentEmptyNestedScenes)
      ≠ [{ id := 1, description := "legacy scene" }] := by
  refine ⟨rfl, rfl, ?_⟩
  decide

/-- C1 witness: a partially-migrated result with nested scenes but legacy
prompts yields the nested scenes and the legacy prompts. -/
theorem normalizer_precedence_by_presence_witness :
    (wMixedResult.scenario_analysis.bind ScenarioAnalysis.scenes
        = some [{ id := 1, description := "nested scene" }]) ∧
    (wMixedResult.prompt_generation.bind PromptGeneration.scene_prompts = none) ∧
    getScenes (some wMixedResult) = [{ id := 1, description := "nested scene" }] ∧
    getPrompts (some wMixedResult) = wMixedResult.prompts.getD [] := by
  refine ⟨rfl, rfl, ?_, ?_⟩
  · exact (normalizer_precedence_by_presence wMixedResult).1 _ rfl
  · exact (normalizer_precedence_by_presence wMixedResult).2.2.2.1 rfl

/-- C4 (amended): every accessor resolves an absent (falsy) category to an
empty collection — the scenes, audio-design, assignments and consistency-map
accessors are total functions on arbitrary dynamic values, and the prompts
accessor returns without error whenever the nested `scene_prompts` chain is
absent; only malformed present nested data can make `getPrompts` throw. -/
theorem normalizer_accessors_absent_resolve_empty :
    (∀ v : JVal, truthy (optChain (optChain v "scenario_analysis") "scenes") = false →
        truthy (optChain v "scenes") = false → getScenesJS v = .varr []) ∧
    (∀ v : JVal, truthy (optChain (optChain v "sound_design") "audio_design") = false →
        truthy (optChain v "audio_design") = false → getAudioDesignJS v = .varr []) ∧
    (∀ v : JVal, truthy (optChain (optChain v "character_analysis") "assignments") = false →
        getCharacterAssignmentsJS v = .varr []) ∧
    (∀ v : JVal, truthy (optChain (optChain v "character_analysis") "consistency_map") = false →
        getConsistencyMapJS v = .vobj []) ∧
    (∀ v : JVal, truthy (optChain (optChain v "prompt_generation") "scene_prompts") = false →
        truthy (optChain v "prompts") = false → getPromptsJS v = .ok (.varr [])) := by
  refine ⟨?_, ?_, ?_, ?_, ?_⟩
  · intro v h1 h2; simp [getScenesJS, jsOr, h1, h2]
  · intro v h1 h2; simp [getAudioDesignJS, jsOr, h1, h2]
  · intro v h1; simp [getCharacterAssignmentsJS, h1]
  · intro v h1; simp [getConsistencyMapJS, h1]
  · intro v h1 h2; simp [getPromptsJS, jsOr, h1, h2, pure, Except.pure]

/-- C4 counterexample: on a result whose nested `scene_prompts` is present
(truthy) but not an array, `getPrompts` raises a `TypeError` instead of
returning a collection. -/
theorem get_prompts_malformed_raises :
    getPromptsJS malformedScenePromptsJS
      = .error "TypeError: forEach is not a function" := rfl

/-- C4 witness: on the `null` result every accessor resolves to an empty
collection without error. -/
theorem normalizer_accessors_absent_resolve_empty_witness :
    truthy (optChain (optChain JVal.vnull "prompt_generation") "scene_prompts") = false ∧
    truthy (optChain JVal.vnull "prompts") = false ∧
    getPromptsJS JVal.vnull = .ok (.varr []) ∧
    getScenesJS JVal.vnull = .varr [] ∧
    getCharacterAssignmentsJS JVal.vnull = .varr [] ∧
    getConsistencyMapJS JVal.vnull = .vobj [] := by
  refine ⟨rfl, rfl, ?_, ?_, ?_, ?_⟩
  · exact normalizer_accessors_absent_resolve_empty.2.2.2.2 JVal.vnull rfl rfl
  · exact normalizer_accessors_absent_resolve_empty.1 JVal.vnull rfl rfl
  · exact normalizer_accessors_absent_resolve_empty.2.2.1 JVal.vnull rfl
  · exact normalizer_accessors_absent_resolve_empty.2.2.2.1 JVal.vnull rfl

/-- C6: adding a custom character is a no-op unless a (truthy) name and a
nonempty traits value are supplied, and a successful add from the form (a
traits string) appends one character with the given name and the comma-split,
trimmed trait list, then resets the form. -/
theorem add_custom_character_requires_name_and_traits :
    (∀ cc sel,
        (truthyOptStr cc.name = false ∨ truthyTraits cc.traits = false ∨
          traitsLength (cc.traits.getD (.arr [])) = 0) →
        addCustomCharacter cc sel = (sel, cc)) ∧
    (∀ sel n s st tr ar, n ≠ "" → s ≠ "" →
        addCustomCharacter
          { name := some n, traits := some (.str s), style := st,
            typical_roles := tr, age_range := ar } sel
          = (sel ++ [{ name := n, traits := (jsSplitComma s).map jsTrim, style := st,
                       typical_roles := tr, age_range := ar }], {})) := by
  constructor
  · intro cc sel h
    rcases h with h | h | h
    · simp [addCustomCharacter, h]
    · simp [addCustomCharacter, h]
    · simp [addCustomCharacter, h]
  · intro sel n s st tr ar hn hs
    have hlen : s.length ≠ 0 := string_length_ne_zero hs
    simp [addCustomCharacter, truthyOptStr, truthyTraits, traitsLength, hn, hs, hlen]

/-- C6 witness: a name with the traits string "brave, bold" adds one
character with traits ["brave", "bold"]. -/
theorem add_custom_character_requires_name_and_traits_witness :
    ("Bob" : String) ≠ "" ∧ ("brave, bold" : String) ≠ "" ∧
    addCustomCharacter pcBob []
      = ([{ name := "Bob", traits := ["brave", "bold"] }], {}) ∧
    (jsSplitComma "brave, bold").map jsTrim = ["brave", "bold"] := by
  refine ⟨by decide, by decide, ?_, by decide⟩
  have h := add_custom_character_requires_name_and_traits.2 [] "Bob" "brave, bold"
    none none none (by decide) (by decide)
  have hpc : pcBob
      = { name := some "Bob", traits := some (.str "brave, bold"), style := none,
          typical_roles := none, age_range := none } := rfl
  rw [hpc, h]
  decide

/-! ## Selection-invariant helpers -/

theorem toggle_names_nodup (c : Character) (sel : List Character)
    (h : (sel.map Character.name).Nodup) :
    ((toggleCharacter c sel).map Character.name).Nodup := by
  unfold toggleCharacter
  by_cases hc : sel.any (fun x => x.name == c.name) = true
  · rw [if_pos hc]
    exact List.Nodup.sublist
      (List.Sublist.map Character.name (List.filter_sublist sel)) h
  · rw [if_neg hc]
    rw [List.map_append, List.nodup_append]
    refine ⟨h, List.nodup_singleton _, ?_⟩
    intro a ha hb
    rcases List.mem_map.mp ha with ⟨x, hx, rfl⟩
    have hane : x.name = c.name := by simpa using hb
    exact hc (List.any_eq_true.mpr ⟨x, hx, by simpa using hane⟩)

theorem remove_names_nodup (n : String) (sel : List Character)
    (h : (sel.map Character.name).Nodup) :
    ((removeCharacter n sel).map Character.name).Nodup :=
  List.Nodup.sublist (List.Sublist.map Character.name (List.filter_sublist sel)) h

theorem applyOps_names_nodup (ops : List SelectionOp) :
    ∀ sel, (sel.map Character.name).Nodup →
      ((ops.foldl (fun s op => applySelectionOp op s) sel).map Character.name).Nodup := by
  induction ops with
  | nil => intro sel h; simpa using h
  | cons op rest ih =>
      intro sel h
      simp only [List.foldl_cons]
      apply ih
      cases op with
      | toggle c => exact toggle_names_nodup c sel h
      | removeByName n => exact remove_names_nodup n sel h

/-- C9: character selection treats the name as the identity key — toggling a
character whose name is already selected removes every entry with that name,
toggling a fresh name appends exactly that one character, removing by name
removes exactly the entries with that name, and any sequence of toggles and
removals from the initial empty selection keeps selected names duplicate-free. -/
theorem selection_keyed_by_name :
    (∀ c sel, sel.any (fun x => x.name == c.name) = true →
        ∀ x ∈ toggleCharacter c sel, x.name ≠ c.name) ∧
    (∀ c sel, ¬ sel.any (fun x => x.name == c.name) = true →
        toggleCharacter c sel = sel ++ [c]) ∧
    (∀ n sel, ∀ x ∈ removeCharacter n sel, x.name ≠ n) ∧
    (∀ n sel x, x ∈ sel → x.name ≠ n → x ∈ removeCharacter n sel) ∧
    (∀ ops, ((applySelectionOps ops).map Character.name).Nodup) := by
  refine ⟨?_, ?_, ?_, ?_, ?_⟩
  · intro c sel hc x hx
    unfold toggleCharacter at hx
    rw [if_pos hc] at hx
    have := List.of_mem_filter hx
    simpa using this
  · intro c sel hc
    unfold toggleCharacter
    rw [if_neg hc]
  · intro n sel x hx
    have := List.of_mem_filter hx
    simpa using this
  · intro n sel x hx hne
    exact List.mem_filter.mpr ⟨hx, by simpa using hne⟩
  · intro ops
    exact applyOps_names_nodup ops [] (by simp)

/-- C9 witness: toggling an already-selected name clears it, and a concrete
toggle/toggle/remove sequence from the empty selection has duplicate-free
names. -/
theorem selection_keyed_by_name_witness :
    ([chAlex].any (fun x => x.name == chAlex.name) = true) ∧
    (∀ x ∈ toggleCharacter chAlex [chAlex], x.name ≠ chAlex.name) ∧
    ((applySelectionOps
        [.toggle chAlex, .toggle chAlex, .removeByName "Alex"]).map Character.name).Nodup := by
  refine ⟨by decide, ?_, ?_⟩
  · exact selection_keyed_by_name.1 chAlex [chAlex] (by decide)
  · exact selection_keyed_by_name.2.2.2.2
      [.toggle chAlex, .toggle chAlex, .removeByName "Alex"]

/-! ## Flattening lemmas -/

theorem mem_sceneBlock_fields {sp : ScenePromptGroup} {p : FlatPrompt}
    (h : p ∈ sceneBlock sp) :
    p.scene_id = sp.scene_id ∧ (p.prompt_type = "image" ∨ p.prompt_type = "video") := by
  unfold sceneBlock at h
  rcases List.mem_append.mp h with hI | hV
  · rcases List.mem_map.mp hI with ⟨ip, _, rfl⟩
    exact ⟨rfl, Or.inl rfl⟩
  · rcases List.mem_map.mp hV with ⟨vp, _, rfl⟩
    exact ⟨rfl, Or.inr rfl⟩

theorem sceneBlock_pairwise (sp : ScenePromptGroup)
    (him : List.Pairwise (fun a b => jsStrLE a.time b.time = true) (sp.image_prompts.getD []))
    (hvd : List.Pairwise (fun a b => jsStrLE a.time b.time = true) (sp.video_prompts.getD [])) :
    List.Pairwise promptLE (sceneBlock sp) := by
  unfold sceneBlock
  rw [List.pairwise_append]
  refine ⟨?_, ?_, ?_⟩
  · rw [List.pairwise_map]
    exact him.imp (fun hab => Or.inr ⟨rfl, Or.inr ⟨rfl, hab⟩⟩)
  · rw [List.pairwise_map]
    exact hvd.imp (fun hab => Or.inr ⟨rfl, Or.inr ⟨rfl, hab⟩⟩)
  · intro a ha b hb
    rcases List.mem_map.mp ha with ⟨ip, _, rfl⟩
    rcases List.mem_map.mp hb with ⟨vp, _, rfl⟩
    exact Or.inr ⟨rfl, Or.inl (show kindRank "image" < kindRank "video" from by decide)⟩

theorem flatten_pairwise_of_sorted (sps : List ScenePromptGroup)
    (hsc : List.Pairwise (fun a b => a.scene_id < b.scene_id) sps)
    (him : ∀ sp ∈ sps, List.Pairwise (fun a b => jsStrLE a.time b.time = true)
        (sp.image_prompts.getD []))
    (hvd : ∀ sp ∈ sps, List.Pairwise (fun a b => jsStrLE a.time b.time = true)
        (sp.video_prompts.getD [])) :
    List.Pairwise promptLE (flattenScenePrompts sps) := by
  induction sps with
  | nil => simp [flattenScenePrompts]
  | cons sp rest ih =>
      rw [flattenScenePrompts, List.flatMap_cons, List.pairwise_append]
      obtain ⟨hfirst, hrest⟩ := List.pairwise_cons.mp hsc
      refine ⟨sceneBlock_pairwise sp (him sp (by simp)) (hvd sp (by simp)), ?_, ?_⟩
      · have hres := ih hrest (fun s hs => him s (by simp [hs]))
          (fun s hs => hvd s (by simp [hs]))
        rwa [flattenScenePrompts] at hres
      · intro a ha b hb
        rcases List.mem_flatMap.mp hb with ⟨sp2, hsp2, hb2⟩
        refine Or.inl ?_
        rw [(mem_sceneBlock_fields ha).1, (mem_sceneBlock_fields hb2).1]
        exact hfirst sp2 hsp2

/-- C2: on the nested schema the flattened prompt list has one entry per
prompt in every scene's image and video groups, and an entry occurs in it
exactly when some scene group contains a source prompt from which it was
built — tagged with that scene's `scene_id`, kind `"image"` or `"video"`
according to its group, and a `time_range` equal to the source prompt's
`time`. -/
theorem prompts_flattened_and_tagged (r : ResultObj) (sps : List ScenePromptGroup)
    (h : r.prompt_generation.bind PromptGeneration.scene_prompts = some sps) :
    (getPrompts (some r)).length
      = (sps.map (fun sp => (sp.image_prompts.getD []).length
          + (sp.video_prompts.getD []).length)).sum ∧
    ∀ p, p ∈ getPrompts (some r) ↔
      ∃ sp ∈ sps,
        (∃ ip ∈ sp.image_prompts.getD [],
            p = { scene_id := sp.scene_id, prompt_type := "image", time_range := ip.time,
                  prompt := ip.prompt, time := ip.time }) ∨
        (∃ vp ∈ sp.video_prompts.getD [],
            p = { scene_id := sp.scene_id, prompt_type := "video", time_range := vp.time,
                  prompt := vp.prompt, time := vp.time }) := by
  have hg : getPrompts (some r) = flattenScenePrompts sps := by simp [getPrompts, h]
  constructor
  · rw [hg]
    simp only [flattenScenePrompts, List.length_flatMap]
    have hfun : (List.length ∘ sceneBlock) = (fun sp : ScenePromptGroup =>
        (sp.image_prompts.getD []).length + (sp.video_prompts.getD []).length) := by
      funext sp
      simp [sceneBlock]
    rw [hfun]
  · intro p
    rw [hg]
    constructor
    · intro hp
      rcases List.mem_flatMap.mp hp with ⟨sp, hsp, hmem⟩
      unfold sceneBlock at hmem
      rcases List.mem_append.mp hmem with hI | hV
      · rcases List.mem_map.mp hI with ⟨ip, hip, rfl⟩
        exact ⟨sp, hsp, Or.inl ⟨ip, hip, rfl⟩⟩
      · rcases List.mem_map.mp hV with ⟨vp, hvp, rfl⟩
        exact ⟨sp, hsp, Or.inr ⟨vp, hvp, rfl⟩⟩
    · rintro ⟨sp, hsp, hcase⟩
      apply List.mem_flatMap.mpr
      refine ⟨sp, hsp, ?_⟩
      unfold sceneBlock
      rcases hcase with ⟨ip, hip, rfl⟩ | ⟨vp, hvp, rfl⟩
      · exact List.mem_append.mpr (Or.inl (List.mem_map.mpr ⟨ip, hip, rfl⟩))
      · exact List.mem_append.mpr (Or.inr (List.mem_map.mpr ⟨vp, hvp, rfl⟩))

/-- C2 witness: a nested result with one scene holding two image prompts and
one video prompt flattens to three prompts. -/
theorem prompts_flattened_and_tagged_witness :
    (wNestedResult.prompt_generation.bind PromptGeneration.scene_prompts).isSome = true ∧
    (getPrompts (some wNestedResult)).length = 3 := by
  refine ⟨rfl, ?_⟩
  have h := (prompts_flattened_and_tagged wNestedResult
    [{ scene_id := 1,
       image_prompts := some [{ time := "0-2s", prompt := "ip one" },
                              { time := "2-4s", prompt := "ip two" }],
       video_prompts := some [{ time := "0-4s", prompt := "vp one" }] }] rfl).1
  rw [h]
  decide

/-- C3 (amended): the flattening performs no sorting of its own — it is a
deterministic function that preserves the stored order — and its output is
ordered by scene number, then by prompt kind (image before video), then by
time range, whenever the stored `scene_prompts` are strictly ascending by
`scene_id` and every scene's image and video prompt groups are ascending by
`time`. -/
theorem prompts_merge_deterministic_order (r : ResultObj) (sps : List ScenePromptGroup)
    (h : r.prompt_generation.bind PromptGeneration.scene_prompts = some sps)
    (hsc : List.Pairwise (fun a b => a.scene_id < b.scene_id) sps)
    (him : ∀ sp ∈ sps, List.Pairwise (fun a b => jsStrLE a.time b.time = true)
        (sp.image_prompts.getD []))
    (hvd : ∀ sp ∈ sps, List.Pairwise (fun a b => jsStrLE a.time b.time = true)
        (sp.video_prompts.getD [])) :
    List.Pairwise promptLE (getPrompts (some r)) := by
  have hg : getPrompts (some r) = flattenScenePrompts sps := by simp [getPrompts, h]
  rw [hg]
  exact flatten_pairwise_of_sorted sps hsc him hvd

/-- C3 counterexample: with `scene_prompts` stored out of scene order the
flattened list is not ordered by scene number — the claim's unconditional
ordering fails. -/
theorem prompts_merge_order_cex :
    (unsortedScenePromptsResult.prompt_generation.bind
        PromptGeneration.scene_prompts).isSome = true ∧
    ¬ List.Pairwise promptLE (getPrompts (some unsortedScenePromptsResult)) := by
  refine ⟨rfl, ?_⟩
  decide

/-- C3 witness: on a sorted nested result the flattened list is ordered. -/
theorem prompts_merge_deterministic_order_witness :
    List.Pairwise promptLE (getPrompts (some sortedScenePromptsResult)) := by
  exact prompts_merge_deterministic_order sortedScenePromptsResult
    [{ scene_id := 1,
       image_prompts := some [{ time := "0-2s", prompt := "s1 i1" },
                              { time := "2-4s", prompt := "s1 i2" }],
       video_prompts := some [{ time := "0-4s", prompt := "s1 v1" }] },
     { scene_id := 2,
       image_prompts := some [{ time := "4-6s", prompt := "s2 i1" }],
       video_prompts := some [{ time := "4-8s", prompt := "s2 v1" }] }]
    rfl (by decide) (by decide) (by decide)
